import Mathlib

/-!
# Verification of the session-management core of `fastapi-template`

This file shallowly embeds the session core of the repository:

* `backend/core/security/fingerprint.py` — `UserAgentInfo`, `ClientFingerprint`;
* `backend/core/security/cryptography.py` — `CryptoUtils.sign` / `unsign` /
  `verify_hash` (the `itsdangerous` and `passlib` library contracts are
  modelled explicitly where the repository relies on them);
* `backend/app/api/auth/repository.py` — `SessionRepository` over a Redis
  key-value store (modelled as an association list with per-entry expiry);
* `backend/app/api/auth/service.py` — `SessionService` (`create_session`,
  `load_session`, `revoke`, `get_session_health`, `inspect_session_health`),
  `has_expired`;
* `project/app/api/auth/const.py` — `SESSION_MAX_LIFETIME`, `SESSION_EXPIRATION`;
* `project/app/api/auth/depends.py` — `validate_user_session`;
* `project/app/core/security/rbac.py` — `Role`; and
  `backend/app/api/users/depends.py` — `role_checker`.

Time is modelled in whole epoch seconds (`Int`); the Python source uses
`time.time()` floats, but every claim under scrutiny is about orderings and
differences of timestamps, which the integer model captures exactly.
Async functions are embedded as pure functions threading the store state.
-/

namespace FastapiTemplate

/-! ## Serialization layer

`SessionRepository.register_session` stores `json.dumps(payload)` and
`SessionRepository.get_session` applies `json.loads`, after which the service
re-validates via pydantic (`SessionData(**payload)`), returning `None` on any
failure.  The Python `json` module is external to the repository; the
repository relies only on its contract: an injective printable encoding whose
decoder is a left inverse on encoded values and fails (degrading to absent)
on other strings.  We model `json.dumps` followed by the pydantic dump, and
`json.loads` followed by pydantic validation, by a concrete executable
encoder/decoder pair for the fixed `SessionData` shape: every field is
length-led, so the decoder is a provable left inverse for arbitrary field
contents. -/

/-- Encode a natural number in unary: `n` copies of `'1'` closed by `'0'`. -/
def encNat (n : Nat) : List Char :=
  List.replicate n '1' ++ ['0']

/-- Decode a unary-encoded natural number, returning the rest of the input. -/
def decNat : List Char → Option (Nat × List Char)
  | '0' :: rest => some (0, rest)
  | '1' :: rest =>
    match decNat rest with
    | some (n, r) => some (n + 1, r)
    | none => none
  | _ => none

theorem decNat_encNat (n : Nat) (rest : List Char) :
    decNat (encNat n ++ rest) = some (n, rest) := by
  induction n with
  | zero => rfl
  | succ k ih =>
    have h1 : encNat (k + 1) ++ rest = '1' :: (encNat k ++ rest) := by
      simp [encNat, List.replicate_succ]
    rw [h1]
    simp [decNat, ih]

/-- Encode a string as its unary length followed by its characters. -/
def encStr (s : String) : List Char :=
  encNat s.toList.length ++ s.toList

/-- Decode a length-led string. -/
def decStr (cs : List Char) : Option (String × List Char) :=
  match decNat cs with
  | some (n, r) =>
    if n ≤ r.length then some (String.mk (r.take n), r.drop n) else none
  | none => none

theorem decStr_encStr (s : String) (rest : List Char) :
    decStr (encStr s ++ rest) = some (s, rest) := by
  unfold decStr encStr
  rw [List.append_assoc, decNat_encNat]
  simp [List.take_left, List.drop_left]

/-- Encode an integer: sign marker then unary magnitude. -/
def encInt (i : Int) : List Char :=
  (if i < 0 then '-' else '+') :: encNat i.natAbs

/-- Decode a sign-marked integer. -/
def decInt : List Char → Option (Int × List Char)
  | '+' :: cs =>
    match decNat cs with
    | some (n, r) => some ((n : Int), r)
    | none => none
  | '-' :: cs =>
    match decNat cs with
    | some (n, r) => some (-(n : Int), r)
    | none => none
  | _ => none

theorem decInt_encInt (i : Int) (rest : List Char) :
    decInt (encInt i ++ rest) = some (i, rest) := by
  unfold encInt
  by_cases h : i < 0
  · rw [if_pos h, List.cons_append]
    simp only [decInt, decNat_encNat]
    have h2 : -(i.natAbs : Int) = i := by omega
    rw [h2]
  · rw [if_neg h, List.cons_append]
    simp only [decInt, decNat_encNat]
    have h2 : ((i.natAbs : Int)) = i := by omega
    rw [h2]

/-- Encode a boolean as a single marker character. -/
def encBool (b : Bool) : List Char :=
  [if b then 'T' else 'F']

/-- Decode a boolean marker. -/
def decBool : List Char → Option (Bool × List Char)
  | 'T' :: rest => some (true, rest)
  | 'F' :: rest => some (false, rest)
  | _ => none

theorem decBool_encBool (b : Bool) (rest : List Char) :
    decBool (encBool b ++ rest) = some (b, rest) := by
  cases b <;> rfl

/-! ## Data model

From `backend/core/security/fingerprint.py` and
`backend/app/api/auth/schema.py`. -/

/-- `UserAgentInfo` (`backend/core/security/fingerprint.py`): the parsed
user-agent descriptor captured at issuance. -/
structure UserAgentInfo where
  user_agent : String
  device : String
  os : String
  browser : String
  is_bot : Bool
  deriving DecidableEq, Repr

/-- `UserAgentInfo.__eq__`: equality compares `device`, `os` and `browser`
only — neither the raw `user_agent` string nor `is_bot` participates. -/
def UserAgentInfo.eq (a b : UserAgentInfo) : Bool :=
  a.device == b.device && a.os == b.os && a.browser == b.browser

/-- `ClientFingerprint` (`backend/core/security/fingerprint.py`). -/
structure ClientFingerprint where
  ip_address : String
  user_agent : UserAgentInfo
  deriving DecidableEq, Repr

/-- `ClientFingerprint.equals` (also `__eq__`): exact IP match combined with
`UserAgentInfo.__eq__`. -/
def ClientFingerprint.equals (a b : ClientFingerprint) : Bool :=
  a.ip_address == b.ip_address && UserAgentInfo.eq a.user_agent b.user_agent

/-- `SessionIdentity` (`backend/app/api/auth/schema.py`). -/
structure SessionIdentity where
  username : String
  role : String
  deriving DecidableEq, Repr

/-- `SessionData` (`backend/app/api/auth/schema.py`): the record serialized
into the key-value store. `created_at` is epoch seconds. -/
structure SessionData where
  identity : SessionIdentity
  created_at : Int
  client : ClientFingerprint
  deriving DecidableEq, Repr

/-- `SessionData.create`: builds the record with `created_at = now`. -/
def SessionData.create (username role : String) (client : ClientFingerprint)
    (now : Int) : SessionData :=
  { identity := { username := username, role := role }
    created_at := now
    client := client }

/-- `SessionData.trusts_client`: fingerprint trust comparison. -/
def SessionData.trusts_client (s : SessionData) (client : ClientFingerprint) :
    Bool :=
  ClientFingerprint.equals s.client client

/-- `json.dumps` of the pydantic `model_dump` of a `SessionData`, modelled as
the concatenation of the length-led encodings of its fields (see the
serialization-layer comment above). -/
def dumps (s : SessionData) : String :=
  String.mk (encStr s.identity.username ++ encStr s.identity.role ++
    encInt s.created_at ++ encStr s.client.ip_address ++
    encStr s.client.user_agent.user_agent ++ encStr s.client.user_agent.device ++
    encStr s.client.user_agent.os ++ encStr s.client.user_agent.browser ++
    encBool s.client.user_agent.is_bot)

/-- `json.loads` followed by pydantic validation (`SessionData(**payload)`);
any failure yields `none`, which the repository and service translate to the
absent result. -/
def loads (v : String) : Option SessionData :=
  match decStr v.toList with
  | none => none
  | some (username, r1) =>
  match decStr r1 with
  | none => none
  | some (role, r2) =>
  match decInt r2 with
  | none => none
  | some (created_at, r3) =>
  match decStr r3 with
  | none => none
  | some (ip, r4) =>
  match decStr r4 with
  | none => none
  | some (ua, r5) =>
  match decStr r5 with
  | none => none
  | some (device, r6) =>
  match decStr r6 with
  | none => none
  | some (os, r7) =>
  match decStr r7 with
  | none => none
  | some (browser, r8) =>
  match decBool r8 with
  | none => none
  | some (is_bot, _) =>
    some { identity := { username := username, role := role }
           created_at := created_at
           client := { ip_address := ip
                       user_agent := { user_agent := ua, device := device
                                       os := os, browser := browser
                                       is_bot := is_bot } } }

theorem loads_dumps (s : SessionData) : loads (dumps s) = some s := by
  have hb : ∀ b : Bool, decBool (encBool b) = some (b, ([] : List Char)) := by
    intro b
    have := decBool_encBool b []
    simpa using this
  unfold loads
  rw [show (dumps s).toList =
    encStr s.identity.username ++ (encStr s.identity.role ++
    (encInt s.created_at ++ (encStr s.client.ip_address ++
    (encStr s.client.user_agent.user_agent ++ (encStr s.client.user_agent.device ++
    (encStr s.client.user_agent.os ++ (encStr s.client.user_agent.browser ++
    encBool s.client.user_agent.is_bot))))))) from by
      simp [dumps, List.append_assoc]]
  simp only [decStr_encStr, decInt_encInt, hb]

/-! ## Key-value store model

`backend/redis/client.py` wraps a Redis connection; the repository uses only
`set(key, value, ex)`, `get`, `delete`, `expire` and `ttl`.  The keyspace is
modelled as an association list, newest binding first (`SET` shadows), with
an absolute expiry instant per entry; a dead (expired) binding reads as
absent, exactly as Redis lazily deletes expired keys. -/

/-- One keyspace binding: key, stored value, absolute expiry instant
(`none` = persistent). -/
structure StoreEntry where
  key : String
  value : String
  expireAt : Option Int
  deriving DecidableEq, Repr

/-- The Redis keyspace. -/
abbrev Store := List StoreEntry

/-- First (authoritative) binding of a key, live or dead. -/
def lookupEntry (S : Store) (k : String) : Option StoreEntry :=
  S.find? (fun e => e.key == k)

/-- Is a binding live at instant `now`? -/
def entryLive (e : StoreEntry) (now : Int) : Bool :=
  match e.expireAt with
  | none => true
  | some t => decide (now < t)

/-- Redis `GET`: the value of a live binding. -/
def redisGet (S : Store) (k : String) (now : Int) : Option String :=
  match lookupEntry S k with
  | some e => if entryLive e now then some e.value else none
  | none => none

/-- Redis `SET` with optional relative TTL `ex` (seconds). -/
def redisSet (S : Store) (k v : String) (ex : Option Int) (now : Int) : Store :=
  { key := k, value := v, expireAt := ex.map (fun t => now + t) } :: S

/-- Redis `DELETE`: removes every binding of the key. -/
def redisDelete (S : Store) (k : String) : Store :=
  S.filter (fun e => e.key != k)

/-- Replace the expiry of the first binding of `k`. -/
def updateExpiry : Store → String → Int → Store
  | [], _, _ => []
  | e :: rest, k, t =>
    if e.key == k then { e with expireAt := some t } :: rest
    else e :: updateExpiry rest k t

/-- Redis `EXPIRE`: resets the TTL of a live key; no-op when the key is
absent or already expired. -/
def redisExpire (S : Store) (k : String) (ex now : Int) : Store :=
  if (redisGet S k now).isSome then updateExpiry S k (now + ex) else S

/-- Redis `TTL`: remaining seconds, `-1` for a persistent key, `-2` when the
key is absent or expired. -/
def redisTtl (S : Store) (k : String) (now : Int) : Int :=
  match lookupEntry S k with
  | none => -2
  | some e =>
    match e.expireAt with
    | none => -1
    | some t => if now < t then t - now else -2

/-- The stored value of a key irrespective of expiry: used to state what the
operations do and do not rewrite. -/
def rawValue (S : Store) (k : String) : Option String :=
  (lookupEntry S k).map (fun e => e.value)

/-! ## Signer model

`CryptoUtils.sign` / `CryptoUtils.unsign` (`backend/core/security/cryptography.py`)
wrap `itsdangerous.URLSafeTimedSerializer`.  The library contract the
repository relies on: `dumps` embeds the signing instant into a tamper-evident
wrapper around the value; `loads(value, max_age)` recovers the value iff the
signature is intact and `now - signedAt ≤ max_age`, and raises otherwise.
A signed token is modelled by the wrapped value, the embedded instant, and an
`intact` flag (`false` models any tampering or forgery); raising is modelled
by `none` at the repository boundary, which catches every unsign failure. -/

structure SignedToken where
  value : String
  signedAt : Int
  intact : Bool
  deriving DecidableEq, Repr

namespace CryptoUtils

/-- `CryptoUtils.sign`: wrap a value with an intact signature bearing the
current instant. -/
def sign (v : String) (now : Int) : SignedToken :=
  { value := v, signedAt := now, intact := true }

/-- `CryptoUtils.unsign(value, max_age)`: the original value iff the
signature verifies within `max_age`; a raised exception is `none`. -/
def unsign (t : SignedToken) (max_age now : Int) : Option String :=
  if t.intact && decide (now - t.signedAt ≤ max_age) then some t.value else none

end CryptoUtils

/-! ## Constants (`project/app/api/auth/const.py`) -/

/-- `SESSION_MAX_LIFETIME = timedelta(days=1).total_seconds()`. -/
def SESSION_MAX_LIFETIME : Int := 86400

/-- `SESSION_EXPIRATION = timedelta(hours=1).total_seconds()`. -/
def SESSION_EXPIRATION : Int := 3600

/-! ## Session repository (`backend/app/api/auth/repository.py`) -/

/-- `session_key`: namespacing of the store key. -/
def session_key (k : String) : String :=
  "auth:sessions:" ++ k

namespace SessionRepository

/-- `resolve_signature`: unsign, catching any failure as `None`. -/
def resolve_signature (tok : SignedToken) (max_age now : Int) : Option String :=
  CryptoUtils.unsign tok max_age now

/-- `register_session`: generate a fresh unsigned id (`secrets.token_urlsafe`,
modelled by the `sid` parameter), store the serialized payload under the
namespaced key with TTL `ex`, and return the signed key. -/
def register_session (payload : SessionData) (ex : Option Int) (sid : String)
    (S : Store) (now : Int) : SignedToken × Store :=
  (CryptoUtils.sign sid now, redisSet S (session_key sid) (dumps payload) ex now)

/-- `get_session` composed with the service-side pydantic validation
(`SessionData(**payload)`): resolve the signature, `GET`, deserialize; every
failure degrades to `none`.  (In the source the repository returns the raw
dict and `SessionService.load_session` / `get_session_health` re-validate it;
both steps return `None` on failure, so they are embedded as one decode.) -/
def get_session (tok : SignedToken) (max_age : Int) (S : Store) (now : Int) :
    Option SessionData :=
  match resolve_signature tok max_age now with
  | none => none
  | some sid =>
    match redisGet S (session_key sid) now with
    | none => none
    | some v => loads v

/-- `delete_session`: resolve then `DELETE`; no-op on unsign failure. -/
def delete_session (tok : SignedToken) (max_age : Int) (S : Store) (now : Int) :
    Store :=
  match resolve_signature tok max_age now with
  | none => S
  | some sid => redisDelete S (session_key sid)

/-- `extend_session`: resolve then `EXPIRE ex`; no-op on unsign failure. -/
def extend_session (tok : SignedToken) (ex max_age : Int) (S : Store)
    (now : Int) : Store :=
  match resolve_signature tok max_age now with
  | none => S
  | some sid => redisExpire S (session_key sid) ex now

/-- `get_session_ttl`: remaining TTL, clamped to `0` when negative or when
the signature does not resolve. -/
def get_session_ttl (tok : SignedToken) (max_age : Int) (S : Store)
    (now : Int) : Int :=
  match resolve_signature tok max_age now with
  | none => 0
  | some sid =>
    let ttl := redisTtl S (session_key sid) now
    if ttl ≥ 0 then ttl else 0

end SessionRepository

/-! ## Session service (`backend/app/api/auth/service.py`) -/

/-- `has_expired(start_time, duration)`: `remaining = duration - (now - start)`
is non-positive. -/
def has_expired (start_time duration now : Int) : Bool :=
  decide (duration - (now - start_time) ≤ 0)

/-- `SessionHealth` (`backend/app/api/auth/schema.py`), timestamps as epoch
seconds. -/
structure SessionHealth where
  max_age_at : Int
  expires_next : Int
  issued_at : Int
  deriving DecidableEq, Repr

/-- `SessionInfo` (`backend/app/api/auth/schema.py`). -/
structure SessionInfo where
  owner : SessionIdentity
  health : SessionHealth
  deriving DecidableEq, Repr

namespace SessionService

/-- `create_session`: build the record with `created_at = now` and register
it with the rolling `SESSION_EXPIRATION` TTL (deliberately not the max
lifetime); returns the signed key and the new store. -/
def create_session (username role : String) (client : ClientFingerprint)
    (sid : String) (S : Store) (now : Int) : SignedToken × Store :=
  SessionRepository.register_session
    (SessionData.create username role client now)
    (some SESSION_EXPIRATION) sid S now

/-- `load_session`: fetch under the `SESSION_MAX_LIFETIME` signature bound;
on hijack or absolute expiry delete the record and return absent; otherwise
extend the TTL back to `SESSION_EXPIRATION` and return the record. -/
def load_session (signed_key : SignedToken) (inbound_client : ClientFingerprint)
    (S : Store) (now : Int) : Option SessionData × Store :=
  match SessionRepository.get_session signed_key SESSION_MAX_LIFETIME S now with
  | none => (none, S)
  | some session_payload =>
    let session_highjacked := ! session_payload.trusts_client inbound_client
    let session_expired :=
      has_expired session_payload.created_at SESSION_MAX_LIFETIME now
    if session_expired || session_highjacked then
      (none, SessionRepository.delete_session signed_key SESSION_MAX_LIFETIME S now)
    else
      (some session_payload,
        SessionRepository.extend_session signed_key SESSION_EXPIRATION
          SESSION_MAX_LIFETIME S now)

/-- `revoke`: best-effort delete; `None` (or a falsy key) is a no-op, and
unsign failures are swallowed inside `delete_session`. -/
def revoke (signed_key : Option SignedToken) (S : Store) (now : Int) : Store :=
  match signed_key with
  | none => S
  | some tok => SessionRepository.delete_session tok SESSION_MAX_LIFETIME S now

/-- `inspect_session_health`: the health snapshot; reads only the TTL, so the
store passes through untouched. -/
def inspect_session_health (session_payload : SessionData)
    (signed_key : SignedToken) (S : Store) (now : Int) : SessionHealth × Store :=
  let next_exp_ms :=
    SessionRepository.get_session_ttl signed_key SESSION_MAX_LIFETIME S now
  let next_exp := now + next_exp_ms
  let max_age_exp_seconds := session_payload.created_at + SESSION_MAX_LIFETIME
  ({ max_age_at := max_age_exp_seconds
     expires_next := next_exp
     issued_at := session_payload.created_at }, S)

/-- `get_session_health`: fetch and validate the record, then build the
snapshot; no max-lifetime check, no fingerprint argument, reads only. -/
def get_session_health (signed_key : SignedToken) (S : Store) (now : Int) :
    Option SessionInfo × Store :=
  match SessionRepository.get_session signed_key SESSION_MAX_LIFETIME S now with
  | none => (none, S)
  | some session_payload =>
    let hS := inspect_session_health session_payload signed_key S now
    (some { owner := session_payload.identity, health := hS.1 }, hS.2)

end SessionService

/-! ## Authentication gate (`project/app/api/auth/depends.py`)

`validate_user_session` receives `HTTPAuthorizationCredentials | None`;
Python's `if not session_id or not session_id.credentials` collapses a
missing header and an empty credentials string into the same branch, so the
optional bearer credential is modelled as `Option SignedToken`: `none` is
"absent or empty credentials", `some tok` is a presented non-empty bearer
string transporting the signed token `tok`. -/

/-- The two boundary outcomes: `HTTPSessionRequired` (401) and
`HTTPInvalidSession` (403) from `backend/app/api/auth/exceptions.py`.
Neither constructor carries an internal reason. -/
inductive GateError where
  | sessionRequired
  | sessionInvalid
  deriving DecidableEq, Repr

/-- `validate_user_session`: raise `HTTPSessionRequired` without a
credential, `HTTPInvalidSession` when `load_session` is absent, else return
the record. -/
def validate_user_session (session_id : Option SignedToken)
    (client : ClientFingerprint) (S : Store) (now : Int) :
    Except GateError SessionData × Store :=
  match session_id with
  | none => (Except.error GateError.sessionRequired, S)
  | some tok =>
    match SessionService.load_session tok client S now with
    | (none, Sx) => (Except.error GateError.sessionInvalid, Sx)
    | (some key_data, Sx) => (Except.ok key_data, Sx)

/-! ## Role gate (`project/app/core/security/rbac.py`,
`backend/app/api/users/depends.py`) -/

/-- The `Role` enum. -/
inductive Role where
  | admin
  | user
  | read_only
  deriving DecidableEq, Repr

/-- `Role.get_role_level`: the ordinal hierarchy (the dict's `-1` default is
unreachable since every member is in the dict). -/
def Role.get_role_level : Role → Int
  | Role.admin => 3
  | Role.user => 2
  | Role.read_only => 1

/-- `Role.__lt__`. -/
def Role.lt (a b : Role) : Bool :=
  decide (Role.get_role_level a < Role.get_role_level b)

/-- `Role.__ge__`. -/
def Role.ge (a b : Role) : Bool :=
  decide (Role.get_role_level a ≥ Role.get_role_level b)

/-- `RoleNotAllowed` (`backend/app/api/users/exceptions.py`). -/
inductive RoleError where
  | roleNotAllowed
  deriving DecidableEq, Repr

/-- The resolved identity a role check runs against. -/
structure UserModel where
  username : String
  role : Role
  deriving DecidableEq, Repr

/-- `role_checker(min_role)` returns the dependency `role_allowed`: raise
`RoleNotAllowed` iff `current_user.role < min_role`, else pass the user
through. -/
def role_checker (min_role : Role) : UserModel → Except RoleError UserModel :=
  fun current_user =>
    if Role.lt current_user.role min_role then
      Except.error RoleError.roleNotAllowed
    else
      Except.ok current_user

/-! ## Password hashing (`CryptoUtils.verify_hash`)

`CryptoUtils.hash_context = CryptContext(schemes=['bcrypt'], deprecated='auto')`
from passlib.  The library contract: `CryptContext.verify(secret, hash)`
first identifies the hash among the configured schemes, raising
`UnknownHashError` (a `ValueError`) when the string is not a recognizable
bcrypt hash, and otherwise returns the boolean comparison result.
`CryptoUtils.verify_hash` delegates to it without catching anything, so the
raise propagates; raising is modelled by `Except.error`. -/

/-- Does passlib identify the string as a bcrypt hash?  Identification is by
shape: the `$2…$` version marker bcrypt hashes carry. -/
def identifiesBcrypt (h : String) : Bool :=
  match h.toList with
  | '$' :: '2' :: '$' :: _ => true
  | '$' :: '2' :: c :: '$' :: _ => c == 'a' || c == 'b' || c == 'x' || c == 'y'
  | _ => false

/-- Stand-in for the bcrypt one-way function (`CryptoUtils.hash`); the claims
under scrutiny depend only on its totality and on its output being an
identifiable bcrypt hash. -/
def bcryptHashOf (plain : String) : String :=
  "$2b$12$" ++ plain

/-- Bcrypt comparison on an identified hash. -/
def bcryptCheckpw (plain hashed : String) : Bool :=
  hashed == bcryptHashOf plain

namespace CryptoUtils

/-- `CryptoUtils.verify_hash(plain_text, hashed_text)`: passlib verification;
an unidentifiable hash raises. -/
def verify_hash (plain_text hashed_text : String) : Except String Bool :=
  if identifiesBcrypt hashed_text then
    Except.ok (bcryptCheckpw plain_text hashed_text)
  else
    Except.error "UnknownHashError"

end CryptoUtils

/-! ## Store lemmas -/

theorem lookupEntry_delete_self (S : Store) (k : String) :
    lookupEntry (redisDelete S k) k = none := by
  induction S with
  | nil => rfl
  | cons e rest ih =>
    by_cases h : e.key = k
    · have hbne : (e.key != k) = false := by simp [h]
      have hred : redisDelete (e :: rest) k = redisDelete rest k := by
        simp [redisDelete, List.filter_cons, hbne]
      rw [hred]
      exact ih
    · have hbne : (e.key != k) = true := by simp [h]
      have hek : (e.key == k) = false := by simp [h]
      have hred : redisDelete (e :: rest) k = e :: redisDelete rest k := by
        simp [redisDelete, List.filter_cons, hbne]
      rw [hred]
      rw [show lookupEntry (e :: redisDelete rest k) k
          = lookupEntry (redisDelete rest k) k from by
        simp [lookupEntry, List.find?, hek]]
      exact ih

theorem lookupEntry_delete_other (S : Store) (k j : String) (h : j ≠ k) :
    lookupEntry (redisDelete S k) j = lookupEntry S j := by
  induction S with
  | nil => rfl
  | cons e rest ih =>
    by_cases hek : e.key = k
    · have : (e.key != k) = false := by simp [hek]
      have hej : (e.key == j) = false := by
        subst hek
        simp [bne]
        exact fun hk => absurd hk.symm h
      simp only [redisDelete, List.filter_cons, this, if_neg, Bool.false_eq_true,
        not_false_iff]
      rw [show lookupEntry (e :: rest) j = lookupEntry rest j from by
        simp [lookupEntry, List.find?, hej]]
      simpa [redisDelete] using ih
    · have : (e.key != k) = true := by simp [hek]
      simp only [redisDelete, List.filter_cons, this, if_pos]
      by_cases hej : e.key = j
      · simp [lookupEntry, List.find?, hej]
      · have hbej : (e.key == j) = false := by simp [hej]
        simp only [lookupEntry, List.find?, hbej]
        simpa [redisDelete, lookupEntry] using ih

theorem rawValue_delete_cases (S : Store) (k j : String) :
    rawValue (redisDelete S k) j = rawValue S j ∨
      rawValue (redisDelete S k) j = none := by
  by_cases h : j = k
  · right
    subst h
    simp [rawValue, lookupEntry_delete_self]
  · left
    simp [rawValue, lookupEntry_delete_other S k j h]

theorem rawValue_updateExpiry (S : Store) (k : String) (t : Int) (j : String) :
    rawValue (updateExpiry S k t) j = rawValue S j := by
  induction S with
  | nil => rfl
  | cons e rest ih =>
    by_cases hek : (e.key == k) = true
    · simp only [updateExpiry, hek, if_pos]
      by_cases hej : (e.key == j) = true
      · simp [rawValue, lookupEntry, List.find?, hej]
      · simp only [Bool.not_eq_true] at hej
        simp [rawValue, lookupEntry, List.find?, hej]
    · simp only [Bool.not_eq_true] at hek
      simp only [updateExpiry, hek, Bool.false_eq_true, if_neg, not_false_iff]
      by_cases hej : (e.key == j) = true
      · simp [rawValue, lookupEntry, List.find?, hej]
      · simp only [Bool.not_eq_true] at hej
        simp only [rawValue, lookupEntry, List.find?, hej]
        exact ih

theorem lookupEntry_updateExpiry_self (S : Store) (k : String) (t : Int)
    (e : StoreEntry) (h : lookupEntry S k = some e) :
    lookupEntry (updateExpiry S k t) k = some { e with expireAt := some t } := by
  induction S with
  | nil => simp [lookupEntry] at h
  | cons e0 rest ih =>
    by_cases hek : (e0.key == k) = true
    · have he0 : e0 = e := by
        simpa [lookupEntry, List.find?, hek] using h
      subst he0
      simp [updateExpiry, hek, lookupEntry, List.find?]
    · simp only [Bool.not_eq_true] at hek
      have h' : lookupEntry rest k = some e := by
        simpa [lookupEntry, List.find?, hek] using h
      simp only [updateExpiry, hek, Bool.false_eq_true, if_neg, not_false_iff]
      simpa [lookupEntry, List.find?, hek] using ih h'

theorem rawValue_redisExpire (S : Store) (k : String) (ex now : Int)
    (j : String) :
    rawValue (redisExpire S k ex now) j = rawValue S j := by
  unfold redisExpire
  by_cases h : (redisGet S k now).isSome
  · simp [h, rawValue_updateExpiry]
  · simp [h]

theorem redisDelete_idem (S : Store) (k : String) :
    redisDelete (redisDelete S k) k = redisDelete S k := by
  unfold redisDelete
  rw [List.filter_filter]
  congr 1
  funext e
  cases h : (e.key != k) <;> simp [h]

/-- `DELETE` on a key that `GET` found: the first live binding carries the
value, and after deletion no binding of the key is left. -/
theorem redisGet_some_elim (S : Store) (k : String) (now : Int) (v : String)
    (h : redisGet S k now = some v) :
    ∃ e, lookupEntry S k = some e ∧ e.value = v ∧ entryLive e now = true := by
  unfold redisGet at h
  cases he : lookupEntry S k with
  | none => rw [he] at h; exact absurd h (by simp)
  | some e =>
    rw [he] at h
    change (if entryLive e now = true then some e.value else none) = some v at h
    by_cases hl : entryLive e now = true
    · refine ⟨e, rfl, ?_, hl⟩
      rw [if_pos hl] at h
      exact (Option.some.injEq _ _).mp h
    · rw [if_neg hl] at h
      exact absurd h (by simp)

theorem rawValue_delete_session_cases (tok : SignedToken) (ma : Int)
    (S : Store) (now : Int) (j : String) :
    rawValue (SessionRepository.delete_session tok ma S now) j = rawValue S j ∨
      rawValue (SessionRepository.delete_session tok ma S now) j = none := by
  unfold SessionRepository.delete_session
  cases SessionRepository.resolve_signature tok ma now with
  | none => left; rfl
  | some sid => exact rawValue_delete_cases S (session_key sid) j

theorem rawValue_extend_session (tok : SignedToken) (ex ma : Int) (S : Store)
    (now : Int) (j : String) :
    rawValue (SessionRepository.extend_session tok ex ma S now) j =
      rawValue S j := by
  unfold SessionRepository.extend_session
  cases SessionRepository.resolve_signature tok ma now with
  | none => rfl
  | some sid => exact rawValue_redisExpire S (session_key sid) ex now j

/-! ## Trace model

The sequences of store-mutating session operations interleaved between a
session's creation and a later read, used for the absolute-ceiling claim. -/

/-- A store-mutating session operation at some instant. -/
inductive SessionOp where
  | loadOp (tok : SignedToken) (client : ClientFingerprint) (time : Int)
  | extendOp (tok : SignedToken) (ex : Int) (time : Int)
  | revokeOp (tok : Option SignedToken) (time : Int)

/-- Apply one operation's store effect. -/
def applyOp (S : Store) : SessionOp → Store
  | SessionOp.loadOp tok client t => (SessionService.load_session tok client S t).2
  | SessionOp.extendOp tok ex t =>
      SessionRepository.extend_session tok ex SESSION_MAX_LIFETIME S t
  | SessionOp.revokeOp tok t => SessionService.revoke tok S t

/-- Run a sequence of operations. -/
def runOps (S : Store) : List SessionOp → Store
  | [] => S
  | op :: rest => runOps (applyOp S op) rest

/-! ## Claim theorems -/

/-- **C3.** A session created at `t0` is rejected by `load_session` at every
instant `t0 + SESSION_MAX_LIFETIME + ε` with `ε > 0`, whatever sequence of
store operations (including TTL extensions by earlier successful
`load_session` calls) ran in the interim: no sliding renewal outlives the
absolute max-lifetime ceiling measured from `created_at`. -/
theorem load_session_absolute_ceiling (S0 : Store)
    (sid username role : String) (issuing_client client : ClientFingerprint)
    (ops : List SessionOp) (t0 ε : Int) (hε : 0 < ε) :
    (SessionService.load_session
      (SessionService.create_session username role issuing_client sid S0 t0).1
      client
      (runOps (SessionService.create_session username role issuing_client sid S0 t0).2
        ops)
      (t0 + SESSION_MAX_LIFETIME + ε)).1 = none := by
  have htok : (SessionService.create_session username role issuing_client sid S0 t0).1 =
      CryptoUtils.sign sid t0 := rfl
  rw [htok]
  have hage : ¬ (t0 + SESSION_MAX_LIFETIME + ε - t0 ≤ SESSION_MAX_LIFETIME) := by
    omega
  unfold SessionService.load_session SessionRepository.get_session
    SessionRepository.resolve_signature CryptoUtils.unsign CryptoUtils.sign
  simp [hage]

/-- **C3 witness.** The ceiling theorem applied one second past the max
lifetime of a concrete session. -/
theorem load_session_absolute_ceiling_witness :
    (0 : Int) < 1 ∧
    (SessionService.load_session
      (SessionService.create_session "alice" "user"
        ⟨"1.2.3.4", ⟨"ua", "dev", "os", "br", false⟩⟩ "sid" [] 0).1
      ⟨"1.2.3.4", ⟨"ua", "dev", "os", "br", false⟩⟩
      (runOps (SessionService.create_session "alice" "user"
        ⟨"1.2.3.4", ⟨"ua", "dev", "os", "br", false⟩⟩ "sid" [] 0).2 [])
      (0 + SESSION_MAX_LIFETIME + 1)).1 = none :=
  ⟨by decide,
    load_session_absolute_ceiling [] "sid" "alice" "user"
      ⟨"1.2.3.4", ⟨"ua", "dev", "os", "br", false⟩⟩
      ⟨"1.2.3.4", ⟨"ua", "dev", "os", "br", false⟩⟩ [] 0 1 (by decide)⟩

/-- **C4.** The authentication gate fails with `SessionRequired` iff no
credential was presented, fails with `SessionInvalid` iff a credential was
presented but `load_session` returned absent, otherwise returns the validated
record; `GateError` has no third constructor, and neither error constructor
carries the internal failure reason. -/
theorem validate_user_session_characterization (cred : Option SignedToken)
    (client : ClientFingerprint) (S : Store) (now : Int) :
    ((validate_user_session cred client S now).1 =
        Except.error GateError.sessionRequired ↔ cred = none) ∧
    ((validate_user_session cred client S now).1 =
        Except.error GateError.sessionInvalid ↔
      ∃ tok, cred = some tok ∧
        (SessionService.load_session tok client S now).1 = none) ∧
    (∀ d, (validate_user_session cred client S now).1 = Except.ok d ↔
      ∃ tok, cred = some tok ∧
        (SessionService.load_session tok client S now).1 = some d) ∧
    (∀ e : GateError,
      e = GateError.sessionRequired ∨ e = GateError.sessionInvalid) := by
  refine ⟨?_, ?_, ?_, fun e => by cases e <;> simp⟩ <;>
    cases cred with
    | none => simp [validate_user_session]
    | some tok =>
      cases hl : SessionService.load_session tok client S now with
      | mk o Sx =>
        cases o <;> simp [validate_user_session, hl]

/-- **C5 counterexample.** `verify_hash` on a malformed hash propagates
passlib's `UnknownHashError` instead of returning `false`: the claim that it
never raises fails at hash `"nothash"`. -/
theorem verify_hash_malformed_raises :
    CryptoUtils.verify_hash "password" "nothash" =
      Except.error "UnknownHashError" ∧
    identifiesBcrypt "nothash" = false ∧
    ∀ b : Bool, CryptoUtils.verify_hash "password" "nothash" ≠ Except.ok b := by
  refine ⟨rfl, rfl, ?_⟩
  intro b h
  rw [show CryptoUtils.verify_hash "password" "nothash" =
    Except.error "UnknownHashError" from rfl] at h
  exact Except.noConfusion h

/-- **C5 amended.** For every plain text and hash string, `verify_hash`
returns the boolean comparison result when the hash is identifiable as
bcrypt, and raises (`UnknownHashError`) when it is malformed — it does not
return `false` on malformed hashes. -/
theorem verify_hash_characterization (plain_text hashed_text : String) :
    (identifiesBcrypt hashed_text = true →
      CryptoUtils.verify_hash plain_text hashed_text =
        Except.ok (bcryptCheckpw plain_text hashed_text)) ∧
    (identifiesBcrypt hashed_text = false →
      CryptoUtils.verify_hash plain_text hashed_text =
        Except.error "UnknownHashError") := by
  constructor
  · intro h
    simp [CryptoUtils.verify_hash, h]
  · intro h
    simp [CryptoUtils.verify_hash, h]

/-- **C5 witness.** The characterization applied to a well-formed bcrypt
hash. -/
theorem verify_hash_characterization_witness :
    identifiesBcrypt "$2b$12$abcdefgh" = true ∧
    CryptoUtils.verify_hash "pw" "$2b$12$abcdefgh" =
      Except.ok (bcryptCheckpw "pw" "$2b$12$abcdefgh") :=
  ⟨rfl, (verify_hash_characterization "pw" "$2b$12$abcdefgh").1 rfl⟩

/-- **C6 counterexample.** A token whose signature no longer verifies (its
embedded instant lies more than the max lifetime in the past) while the store
key is still present: `revoke` swallows the unsign failure and returns with
the key still in the store, so "on return the store does not contain the
session key for that token" fails. -/
theorem revoke_stale_signature_leaves_key :
    SessionService.revoke (some ⟨"sid", 0, true⟩)
        [⟨session_key "sid", "payload", none⟩] 90000 =
      [⟨session_key "sid", "payload", none⟩] ∧
    rawValue (SessionService.revoke (some ⟨"sid", 0, true⟩)
        [⟨session_key "sid", "payload", none⟩] 90000) (session_key "sid") =
      some "payload" ∧
    (90000 : Int) - 0 > SESSION_MAX_LIFETIME := by
  refine ⟨by decide, by decide, by decide⟩

/-- **C6 amended.** `revoke` never raises (it is a total function), a missing
key is a no-op, revoking twice equals revoking once, and the store is left
without the session key whenever the token's signature resolves; when the
signature fails to resolve, `revoke` is a no-op that can leave an existing
key in place. -/
theorem revoke_idempotent_best_effort (tok : SignedToken) (S : Store)
    (now : Int) :
    SessionService.revoke none S now = S ∧
    SessionService.revoke (some tok) (SessionService.revoke (some tok) S now)
        now = SessionService.revoke (some tok) S now ∧
    (∀ sid,
      SessionRepository.resolve_signature tok SESSION_MAX_LIFETIME now =
        some sid →
      rawValue (SessionService.revoke (some tok) S now) (session_key sid) =
        none) ∧
    (SessionRepository.resolve_signature tok SESSION_MAX_LIFETIME now = none →
      SessionService.revoke (some tok) S now = S) := by
  refine ⟨rfl, ?_, ?_, ?_⟩
  · show SessionRepository.delete_session tok SESSION_MAX_LIFETIME
        (SessionRepository.delete_session tok SESSION_MAX_LIFETIME S now) now =
      SessionRepository.delete_session tok SESSION_MAX_LIFETIME S now
    unfold SessionRepository.delete_session
    cases SessionRepository.resolve_signature tok SESSION_MAX_LIFETIME now with
    | none => rfl
    | some sid => exact redisDelete_idem S (session_key sid)
  · intro sid hres
    show rawValue (SessionRepository.delete_session tok SESSION_MAX_LIFETIME
      S now) (session_key sid) = none
    unfold SessionRepository.delete_session
    rw [hres]
    simp [rawValue, lookupEntry_delete_self]
  · intro hres
    show SessionRepository.delete_session tok SESSION_MAX_LIFETIME S now = S
    unfold SessionRepository.delete_session
    rw [hres]

/-- **C6 witness.** Revocation of a resolvable token deletes the key. -/
theorem revoke_idempotent_best_effort_witness :
    SessionRepository.resolve_signature ⟨"sid", 0, true⟩ SESSION_MAX_LIFETIME
        10 = some "sid" ∧
    rawValue (SessionService.revoke (some ⟨"sid", 0, true⟩)
        [⟨session_key "sid", "payload", some 3600⟩] 10) (session_key "sid") =
      none :=
  ⟨by decide,
    (revoke_idempotent_best_effort ⟨"sid", 0, true⟩
      [⟨session_key "sid", "payload", some 3600⟩] 10).2.2.1 "sid" (by decide)⟩

/-- **C7.** The role gate allows iff `role ≥ min_role` under the total order
read_only < user < admin, raises `RoleNotAllowed` exactly when
`current_role < min_role`, and `admin ≥ user`, `user ≥ user`,
`read_only < user` all hold under the comparison the gate uses. -/
theorem role_gate_characterization :
    (∀ (min_role : Role) (current_user : UserModel),
      (role_checker min_role current_user = Except.ok current_user ↔
        Role.ge current_user.role min_role = true) ∧
      (role_checker min_role current_user =
          Except.error RoleError.roleNotAllowed ↔
        Role.lt current_user.role min_role = true)) ∧
    (∀ a b : Role, Role.lt a b = true ∨ a = b ∨ Role.lt b a = true) ∧
    Role.ge Role.admin Role.user = true ∧
    Role.ge Role.user Role.user = true ∧
    Role.lt Role.read_only Role.user = true := by
  refine ⟨?_, ?_, by decide, by decide, by decide⟩
  · intro min_role current_user
    rcases current_user with ⟨un, r⟩
    cases r <;> cases min_role <;>
      simp [role_checker, Role.lt, Role.ge, Role.get_role_level]
  · intro a b
    cases a <;> cases b <;> decide

/-- **C1 counterexample.** At the exact boundary `now - created_at =
SESSION_MAX_LIFETIME`, with matching fingerprints and the record present and
live in the store, the code deletes the record and returns absent although
the claim's strict condition `now - created_at > max_lifetime` is false, so
the claim's "otherwise reset the TTL and return the record" branch fails. -/
theorem load_session_boundary_counterexample :
    (SessionService.load_session ⟨"sid", 0, true⟩
        ⟨"1.2.3.4", ⟨"ua", "dev", "os", "br", false⟩⟩
        [⟨session_key "sid",
          dumps ⟨⟨"alice", "user"⟩, 0,
            ⟨"1.2.3.4", ⟨"ua", "dev", "os", "br", false⟩⟩⟩,
          some 86401⟩] 86400).1 = none ∧
    (SessionService.load_session ⟨"sid", 0, true⟩
        ⟨"1.2.3.4", ⟨"ua", "dev", "os", "br", false⟩⟩
        [⟨session_key "sid",
          dumps ⟨⟨"alice", "user"⟩, 0,
            ⟨"1.2.3.4", ⟨"ua", "dev", "os", "br", false⟩⟩⟩,
          some 86401⟩] 86400).2 = [] ∧
    SessionData.trusts_client
      ⟨⟨"alice", "user"⟩, 0, ⟨"1.2.3.4", ⟨"ua", "dev", "os", "br", false⟩⟩⟩
      ⟨"1.2.3.4", ⟨"ua", "dev", "os", "br", false⟩⟩ = true ∧
    ¬ ((86400 : Int) - 0 > SESSION_MAX_LIFETIME) := by
  refine ⟨by decide, by decide, by decide, by decide⟩

/-- **C1 amended.** For every signed token that resolves and whose record is
present and decodable in the store, `load_session` deletes the store record
and returns absent when `now - record.created_at ≥ max_lifetime` (the code
treats the exact boundary as expired) or when the inbound fingerprint does
not equal the recorded one; otherwise it resets the store TTL to the rolling
`SESSION_EXPIRATION` window (strictly shorter than `SESSION_MAX_LIFETIME`),
leaves the stored value unchanged, and returns the record. -/
theorem load_session_validation (tok : SignedToken)
    (inbound : ClientFingerprint) (S : Store) (now : Int) (sid v : String)
    (p : SessionData)
    (hres : SessionRepository.resolve_signature tok SESSION_MAX_LIFETIME now =
      some sid)
    (hget : redisGet S (session_key sid) now = some v)
    (hloads : loads v = some p) :
    ((now - p.created_at ≥ SESSION_MAX_LIFETIME ∨
        p.trusts_client inbound = false) →
      (SessionService.load_session tok inbound S now).1 = none ∧
      rawValue (SessionService.load_session tok inbound S now).2
        (session_key sid) = none) ∧
    (now - p.created_at < SESSION_MAX_LIFETIME →
      p.trusts_client inbound = true →
      (SessionService.load_session tok inbound S now).1 = some p ∧
      rawValue (SessionService.load_session tok inbound S now).2
        (session_key sid) = some v ∧
      redisTtl (SessionService.load_session tok inbound S now).2
        (session_key sid) now = SESSION_EXPIRATION ∧
      SESSION_EXPIRATION < SESSION_MAX_LIFETIME) := by
  have hgs : SessionRepository.get_session tok SESSION_MAX_LIFETIME S now =
      some p := by
    simp [SessionRepository.get_session, hres, hget, hloads]
  constructor
  · intro hbad
    have hcond : (has_expired p.created_at SESSION_MAX_LIFETIME now ||
        ! p.trusts_client inbound) = true := by
      rcases hbad with h | h
      · have hx : has_expired p.created_at SESSION_MAX_LIFETIME now = true := by
          simp only [has_expired, decide_eq_true_eq]
          omega
        simp [hx]
      · simp [h]
    simp only [SessionService.load_session, hgs, hcond, if_pos]
    refine ⟨by trivial, ?_⟩
    unfold SessionRepository.delete_session
    rw [hres]
    simp [rawValue, lookupEntry_delete_self]
  · intro hfresh htrust
    have hcond : (has_expired p.created_at SESSION_MAX_LIFETIME now ||
        ! p.trusts_client inbound) = false := by
      have hx : has_expired p.created_at SESSION_MAX_LIFETIME now = false := by
        simp only [has_expired, decide_eq_false_iff_not]
        omega
      simp [hx, htrust]
    simp only [SessionService.load_session, hgs, hcond, Bool.false_eq_true,
      if_neg, not_false_iff]
    obtain ⟨e, hle, hev, hlive⟩ := redisGet_some_elim S (session_key sid) now v hget
    have hS2 : SessionRepository.extend_session tok SESSION_EXPIRATION
        SESSION_MAX_LIFETIME S now =
        updateExpiry S (session_key sid) (now + SESSION_EXPIRATION) := by
      unfold SessionRepository.extend_session
      rw [hres]
      show redisExpire S (session_key sid) SESSION_EXPIRATION now = _
      unfold redisExpire
      rw [if_pos (by simp [hget])]
    refine ⟨by trivial, ?_, ?_, by decide⟩
    · rw [hS2, rawValue_updateExpiry]
      simp [rawValue, hle, hev]
    · rw [hS2]
      have hup := lookupEntry_updateExpiry_self S (session_key sid)
        (now + SESSION_EXPIRATION) e hle
      unfold redisTtl
      rw [hup]
      have hpos : now < now + SESSION_EXPIRATION := by
        unfold SESSION_EXPIRATION
        omega
      simp only [if_pos hpos]
      omega

/-- **C1 witness.** A fresh, trusted concrete read: the record is returned
and the TTL reset to the rolling window. -/
theorem load_session_validation_witness :
    SessionRepository.resolve_signature ⟨"sid", 0, true⟩ SESSION_MAX_LIFETIME
        10 = some "sid" ∧
    (SessionService.load_session ⟨"sid", 0, true⟩
        ⟨"1.2.3.4", ⟨"ua", "dev", "os", "br", false⟩⟩
        [⟨session_key "sid",
          dumps ⟨⟨"alice", "user"⟩, 0,
            ⟨"1.2.3.4", ⟨"ua", "dev", "os", "br", false⟩⟩⟩,
          some 3600⟩] 10).1 =
      some ⟨⟨"alice", "user"⟩, 0,
        ⟨"1.2.3.4", ⟨"ua", "dev", "os", "br", false⟩⟩⟩ ∧
    redisTtl (SessionService.load_session ⟨"sid", 0, true⟩
        ⟨"1.2.3.4", ⟨"ua", "dev", "os", "br", false⟩⟩
        [⟨session_key "sid",
          dumps ⟨⟨"alice", "user"⟩, 0,
            ⟨"1.2.3.4", ⟨"ua", "dev", "os", "br", false⟩⟩⟩,
          some 3600⟩] 10).2 (session_key "sid") 10 = SESSION_EXPIRATION :=
  ⟨by decide,
    ((load_session_validation ⟨"sid", 0, true⟩
      ⟨"1.2.3.4", ⟨"ua", "dev", "os", "br", false⟩⟩
      [⟨session_key "sid",
        dumps ⟨⟨"alice", "user"⟩, 0,
          ⟨"1.2.3.4", ⟨"ua", "dev", "os", "br", false⟩⟩⟩,
        some 3600⟩] 10 "sid"
      (dumps ⟨⟨"alice", "user"⟩, 0,
        ⟨"1.2.3.4", ⟨"ua", "dev", "os", "br", false⟩⟩⟩)
      ⟨⟨"alice", "user"⟩, 0, ⟨"1.2.3.4", ⟨"ua", "dev", "os", "br", false⟩⟩⟩
      (by decide) rfl
      (loads_dumps _)).2 (by decide) (by decide)).1,
    ((load_session_validation ⟨"sid", 0, true⟩
      ⟨"1.2.3.4", ⟨"ua", "dev", "os", "br", false⟩⟩
      [⟨session_key "sid",
        dumps ⟨⟨"alice", "user"⟩, 0,
          ⟨"1.2.3.4", ⟨"ua", "dev", "os", "br", false⟩⟩⟩,
        some 3600⟩] 10 "sid"
      (dumps ⟨⟨"alice", "user"⟩, 0,
        ⟨"1.2.3.4", ⟨"ua", "dev", "os", "br", false⟩⟩⟩)
      ⟨⟨"alice", "user"⟩, 0, ⟨"1.2.3.4", ⟨"ua", "dev", "os", "br", false⟩⟩⟩
      (by decide) rfl
      (loads_dumps _)).2 (by decide) (by decide)).2.2.1⟩

/-- **C2.** Fingerprint trust is exact IP equality combined with equality of
(device, os, browser) of the user-agent — the raw user-agent string and the
bot flag do not participate — and a `load_session` with a fingerprint that
fails this comparison against the recorded one returns absent and deletes
the store record. -/
theorem fingerprint_mismatch_hijack (A B : ClientFingerprint)
    (tok : SignedToken) (S : Store) (now : Int) (sid : String)
    (p : SessionData) :
    (ClientFingerprint.equals A B = true ↔
      (A.ip_address = B.ip_address ∧
        A.user_agent.device = B.user_agent.device ∧
        A.user_agent.os = B.user_agent.os ∧
        A.user_agent.browser = B.user_agent.browser)) ∧
    (∀ rawA botA rawB botB,
      ClientFingerprint.equals
        ⟨A.ip_address, ⟨rawA, A.user_agent.device, A.user_agent.os,
          A.user_agent.browser, botA⟩⟩
        ⟨B.ip_address, ⟨rawB, B.user_agent.device, B.user_agent.os,
          B.user_agent.browser, botB⟩⟩ =
      ClientFingerprint.equals A B) ∧
    (SessionRepository.resolve_signature tok SESSION_MAX_LIFETIME now =
        some sid →
      SessionRepository.get_session tok SESSION_MAX_LIFETIME S now = some p →
      p.client = A →
      ClientFingerprint.equals A B = false →
      (SessionService.load_session tok B S now).1 = none ∧
      rawValue (SessionService.load_session tok B S now).2 (session_key sid) =
        none) := by
  refine ⟨?_, ?_, ?_⟩
  · simp [ClientFingerprint.equals, UserAgentInfo.eq, Bool.and_eq_true,
      beq_iff_eq, and_assoc]
  · intro rawA botA rawB botB
    rfl
  · intro hres hgs hcA heq
    have htr : p.trusts_client B = false := by
      unfold SessionData.trusts_client
      rw [hcA, heq]
    have hcond : (has_expired p.created_at SESSION_MAX_LIFETIME now ||
        ! p.trusts_client B) = true := by
      simp [htr]
    simp only [SessionService.load_session, hgs, hcond, if_pos]
    refine ⟨by trivial, ?_⟩
    unfold SessionRepository.delete_session
    rw [hres]
    simp [rawValue, lookupEntry_delete_self]

/-- **C2 witness.** A concrete session recorded for one fingerprint and read
with a fingerprint differing only in browser: absent and deleted. -/
theorem fingerprint_mismatch_hijack_witness :
    ClientFingerprint.equals ⟨"1.2.3.4", ⟨"ua", "dev", "os", "br", false⟩⟩
        ⟨"1.2.3.4", ⟨"ua", "dev", "os", "brX", false⟩⟩ = false ∧
    (SessionService.load_session ⟨"sid", 0, true⟩
        ⟨"1.2.3.4", ⟨"ua", "dev", "os", "brX", false⟩⟩
        [⟨session_key "sid",
          dumps ⟨⟨"alice", "user"⟩, 0,
            ⟨"1.2.3.4", ⟨"ua", "dev", "os", "br", false⟩⟩⟩,
          some 3600⟩] 10).1 = none ∧
    rawValue (SessionService.load_session ⟨"sid", 0, true⟩
        ⟨"1.2.3.4", ⟨"ua", "dev", "os", "brX", false⟩⟩
        [⟨session_key "sid",
          dumps ⟨⟨"alice", "user"⟩, 0,
            ⟨"1.2.3.4", ⟨"ua", "dev", "os", "br", false⟩⟩⟩,
          some 3600⟩] 10).2 (session_key "sid") = none :=
  ⟨by decide,
    (fingerprint_mismatch_hijack
      ⟨"1.2.3.4", ⟨"ua", "dev", "os", "br", false⟩⟩
      ⟨"1.2.3.4", ⟨"ua", "dev", "os", "brX", false⟩⟩
      ⟨"sid", 0, true⟩
      [⟨session_key "sid",
        dumps ⟨⟨"alice", "user"⟩, 0,
          ⟨"1.2.3.4", ⟨"ua", "dev", "os", "br", false⟩⟩⟩,
        some 3600⟩] 10 "sid"
      ⟨⟨"alice", "user"⟩, 0,
        ⟨"1.2.3.4", ⟨"ua", "dev", "os", "br", false⟩⟩⟩).2.2
      (by decide) (by decide) rfl (by decide)⟩

theorem redisGet_set_pos (S : Store) (k v : String) (T now : Int)
    (hT : 0 < T) :
    redisGet (redisSet S k v (some T) now) k now = some v := by
  unfold redisSet redisGet lookupEntry
  rw [List.find?_cons_of_pos _ (by simp)]
  simp [entryLive, show now < now + T from by omega]

/-- **C8.** Round trip: for every payload `P` and every TTL `T > 0`, reading
the session store immediately after `register_session(P, T)`, with the
signed token it returned, yields `P` unchanged. -/
theorem register_get_round_trip (P : SessionData) (T : Int) (S0 : Store)
    (sid : String) (now : Int) (hT : 0 < T) :
    SessionRepository.get_session
      (SessionRepository.register_session P (some T) sid S0 now).1
      SESSION_MAX_LIFETIME
      (SessionRepository.register_session P (some T) sid S0 now).2 now =
      some P := by
  show SessionRepository.get_session (CryptoUtils.sign sid now)
    SESSION_MAX_LIFETIME (redisSet S0 (session_key sid) (dumps P) (some T) now)
    now = some P
  have hres : SessionRepository.resolve_signature (CryptoUtils.sign sid now)
      SESSION_MAX_LIFETIME now = some sid := by
    unfold SessionRepository.resolve_signature CryptoUtils.unsign
      CryptoUtils.sign
    have h0 : (0 : Int) ≤ SESSION_MAX_LIFETIME := by
      unfold SESSION_MAX_LIFETIME
      omega
    simp [h0]
  have hget := redisGet_set_pos S0 (session_key sid) (dumps P) T now hT
  simp [SessionRepository.get_session, hres, hget, loads_dumps]

/-- **C8 witness.** The round trip at a concrete payload and TTL. -/
theorem register_get_round_trip_witness :
    (0 : Int) < 1800 ∧
    SessionRepository.get_session
      (SessionRepository.register_session
        ⟨⟨"alice", "user"⟩, 5, ⟨"1.2.3.4", ⟨"ua", "dev", "os", "br", false⟩⟩⟩
        (some 1800) "sid" [] 5).1
      SESSION_MAX_LIFETIME
      (SessionRepository.register_session
        ⟨⟨"alice", "user"⟩, 5, ⟨"1.2.3.4", ⟨"ua", "dev", "os", "br", false⟩⟩⟩
        (some 1800) "sid" [] 5).2 5 =
      some ⟨⟨"alice", "user"⟩, 5,
        ⟨"1.2.3.4", ⟨"ua", "dev", "os", "br", false⟩⟩⟩ :=
  ⟨by decide,
    register_get_round_trip
      ⟨⟨"alice", "user"⟩, 5, ⟨"1.2.3.4", ⟨"ua", "dev", "os", "br", false⟩⟩⟩
      1800 [] "sid" 5 (by decide)⟩

/-- Store effect of `load_session`: it leaves the store untouched, deletes
through `delete_session`, or extends through `extend_session`. -/
theorem load_session_store_effect (tok : SignedToken)
    (client : ClientFingerprint) (S : Store) (now : Int) :
    (SessionService.load_session tok client S now).2 = S ∨
    (SessionService.load_session tok client S now).2 =
      SessionRepository.delete_session tok SESSION_MAX_LIFETIME S now ∨
    (SessionService.load_session tok client S now).2 =
      SessionRepository.extend_session tok SESSION_EXPIRATION
        SESSION_MAX_LIFETIME S now := by
  unfold SessionService.load_session
  cases SessionRepository.get_session tok SESSION_MAX_LIFETIME S now with
  | none => left; rfl
  | some p =>
    by_cases hc : (has_expired p.created_at SESSION_MAX_LIFETIME now ||
        ! p.trusts_client client) = true
    · right; left
      simp [hc]
    · right; right
      simp [hc]

/-- **C9.** No session-service operation rewrites a stored record (so in
particular `created_at` is immutable after creation): `load_session`,
`revoke` and `extend_session` leave every key's stored value unchanged or
delete the key; `create_session` touches no key other than the one it
writes; and the health operations return the store unchanged. -/
theorem session_store_value_immutability :
    (∀ tok client S now j,
      rawValue (SessionService.load_session tok client S now).2 j =
        rawValue S j ∨
      rawValue (SessionService.load_session tok client S now).2 j = none) ∧
    (∀ otok S now j,
      rawValue (SessionService.revoke otok S now) j = rawValue S j ∨
      rawValue (SessionService.revoke otok S now) j = none) ∧
    (∀ tok ex ma S now j,
      rawValue (SessionRepository.extend_session tok ex ma S now) j =
        rawValue S j) ∧
    (∀ username role client sid S now j,
      j = session_key sid ∨
      rawValue
        (SessionService.create_session username role client sid S now).2 j =
        rawValue S j) ∧
    (∀ tok S now, (SessionService.get_session_health tok S now).2 = S) := by
  refine ⟨?_, ?_, ?_, ?_, ?_⟩
  · intro tok client S now j
    rcases load_session_store_effect tok client S now with h | h | h
    · left; rw [h]
    · rw [h]
      exact rawValue_delete_session_cases tok SESSION_MAX_LIFETIME S now j
    · left
      rw [h]
      exact rawValue_extend_session tok SESSION_EXPIRATION
        SESSION_MAX_LIFETIME S now j
  · intro otok S now j
    cases otok with
    | none => left; rfl
    | some tok =>
      exact rawValue_delete_session_cases tok SESSION_MAX_LIFETIME S now j
  · intro tok ex ma S now j
    exact rawValue_extend_session tok ex ma S now j
  · intro username role client sid S now j
    by_cases hj : j = session_key sid
    · left; exact hj
    · right
      have hk : ((session_key sid : String) == j) = false := by
        rw [beq_eq_false_iff_ne]
        exact fun h => hj h.symm
      show rawValue (redisSet S (session_key sid)
        (dumps (SessionData.create username role client now))
        (some SESSION_EXPIRATION) now) j = rawValue S j
      unfold redisSet rawValue lookupEntry
      rw [List.find?_cons_of_neg _ (by simp [hk])]
  · intro tok S now
    unfold SessionService.get_session_health
    cases SessionRepository.get_session tok SESSION_MAX_LIFETIME S now with
    | none => rfl
    | some p => rfl

/-- **C10.** `get_session_health` returns a snapshot for any token whose
signature resolves and whose record is present and decodable — it performs
no max-lifetime check and takes no fingerprint; neither health operation
mutates the store; and there are states (a record older than the max
lifetime whose key is still present, or a caller with a different
fingerprint) where `get_session_health` returns a snapshot while
`load_session` on the same token returns absent. -/
theorem get_session_health_no_revalidation :
    (∀ tok S now, (SessionService.get_session_health tok S now).2 = S) ∧
    (∀ p tok S now,
      (SessionService.inspect_session_health p tok S now).2 = S) ∧
    (∀ tok S now p,
      SessionRepository.get_session tok SESSION_MAX_LIFETIME S now = some p →
      (SessionService.get_session_health tok S now).1 =
        some { owner := p.identity
               health :=
                 (SessionService.inspect_session_health p tok S now).1 }) ∧
    ((86401 : Int) - 0 > SESSION_MAX_LIFETIME ∧
      (SessionService.get_session_health ⟨"sid", 86400, true⟩
        [⟨session_key "sid",
          dumps ⟨⟨"alice", "user"⟩, 0,
            ⟨"1.2.3.4", ⟨"ua", "dev", "os", "br", false⟩⟩⟩,
          some 86500⟩] 86401).1.isSome = true ∧
      (SessionService.load_session ⟨"sid", 86400, true⟩
        ⟨"1.2.3.4", ⟨"ua", "dev", "os", "br", false⟩⟩
        [⟨session_key "sid",
          dumps ⟨⟨"alice", "user"⟩, 0,
            ⟨"1.2.3.4", ⟨"ua", "dev", "os", "br", false⟩⟩⟩,
          some 86500⟩] 86401).1 = none) ∧
    ((SessionService.get_session_health ⟨"sid", 0, true⟩
        [⟨session_key "sid",
          dumps ⟨⟨"alice", "user"⟩, 0,
            ⟨"1.2.3.4", ⟨"ua", "dev", "os", "br", false⟩⟩⟩,
          some 3600⟩] 10).1.isSome = true ∧
      (SessionService.load_session ⟨"sid", 0, true⟩
        ⟨"1.2.3.4", ⟨"ua", "dev", "os", "brX", false⟩⟩
        [⟨session_key "sid",
          dumps ⟨⟨"alice", "user"⟩, 0,
            ⟨"1.2.3.4", ⟨"ua", "dev", "os", "br", false⟩⟩⟩,
          some 3600⟩] 10).1 = none) := by
  refine ⟨?_, ?_, ?_, ⟨by decide, by decide, by decide⟩, by decide, by decide⟩
  · intro tok S now
    unfold SessionService.get_session_health
    cases SessionRepository.get_session tok SESSION_MAX_LIFETIME S now with
    | none => rfl
    | some p => rfl
  · intro p tok S now
    rfl
  · intro tok S now p hgs
    simp [SessionService.get_session_health, hgs]

/-- **C10 witness.** The snapshot clause applied to a concrete present
record. -/
theorem get_session_health_no_revalidation_witness :
    SessionRepository.get_session ⟨"sid", 0, true⟩ SESSION_MAX_LIFETIME
      [⟨session_key "sid",
        dumps ⟨⟨"alice", "user"⟩, 0,
          ⟨"1.2.3.4", ⟨"ua", "dev", "os", "br", false⟩⟩⟩,
        some 3600⟩] 10 =
      some ⟨⟨"alice", "user"⟩, 0,
        ⟨"1.2.3.4", ⟨"ua", "dev", "os", "br", false⟩⟩⟩ ∧
    (SessionService.get_session_health ⟨"sid", 0, true⟩
      [⟨session_key "sid",
        dumps ⟨⟨"alice", "user"⟩, 0,
          ⟨"1.2.3.4", ⟨"ua", "dev", "os", "br", false⟩⟩⟩,
        some 3600⟩] 10).1 =
      some { owner := ⟨"alice", "user"⟩
             health :=
               (SessionService.inspect_session_health
                 ⟨⟨"alice", "user"⟩, 0,
                   ⟨"1.2.3.4", ⟨"ua", "dev", "os", "br", false⟩⟩⟩
                 ⟨"sid", 0, true⟩
                 [⟨session_key "sid",
                   dumps ⟨⟨"alice", "user"⟩, 0,
                     ⟨"1.2.3.4", ⟨"ua", "dev", "os", "br", false⟩⟩⟩,
                   some 3600⟩] 10).1 } :=
  ⟨by decide,
    (get_session_health_no_revalidation.2.2.1 ⟨"sid", 0, true⟩
      [⟨session_key "sid",
        dumps ⟨⟨"alice", "user"⟩, 0,
          ⟨"1.2.3.4", ⟨"ua", "dev", "os", "br", false⟩⟩⟩,
        some 3600⟩] 10
      ⟨⟨"alice", "user"⟩, 0, ⟨"1.2.3.4", ⟨"ua", "dev", "os", "br", false⟩⟩⟩
      (by decide))⟩

end FastapiTemplate
